import Mathlib

/-!
Shallow embedding of `clp_py_utils/sql_adapter.py` (class `SQL_Adapter`).

The adapter holds a database configuration and exposes three operations:
`create_mysql_connection`, `create_mariadb_connection` and
`create_connection`.  The two client libraries (`mysql.connector` and
`mariadb`) are modelled as an environment of connect functions returning
either a connection handle or a raised Python exception; the logging sink
is modelled as the list of messages passed to `logging.error`.
-/

/-- Error codes from `mysql.connector.errorcode` used by the adapter. -/
def ER_ACCESS_DENIED_ERROR : Nat := 1045

/-- Error code for a database that does not exist (`ER_BAD_DB_ERROR`). -/
def ER_BAD_DB_ERROR : Nat := 1049

/-- A Python exception as observable by this component: the two client
error types it can catch, the `NotImplementedError` it raises itself, and
any other exception. -/
inductive PyExc where
  | mysqlError (errno : Nat) (msg : String)
  | mariadbError (msg : String)
  | notImplementedError
  | otherExc (msg : String)
deriving DecidableEq, Repr

/-- Rendering of an exception as Python would stringify it when it is
passed to `logging.error` or interpolated into an f-string. -/
def pyStr : PyExc → String
  | .mysqlError errno msg => toString errno ++ ": " ++ msg
  | .mariadbError msg => msg
  | .notImplementedError => "NotImplementedError"
  | .otherExc msg => msg

/-- Is the exception of type `mysql.connector.Error`? -/
def PyExc.isMysqlError : PyExc → Bool
  | .mysqlError _ _ => true
  | _ => false

/-- Is the exception of type `mariadb.Error`? -/
def PyExc.isMariadbError : PyExc → Bool
  | .mariadbError _ => true
  | _ => false

/-- The `Database` configuration value (from `clp_config`), as consumed by
the adapter: a type discriminator, a database name, and a derived mapping
of connection parameters (modelled as an opaque value of type `Params`). -/
structure Database (Params : Type) where
  type : String
  name : String
  get_mysql_connection_params : Params
deriving DecidableEq, Repr

/-- The environment of external client libraries: the connect entry point
of `mysql.connector` and of `mariadb`.  Each either returns a connection
handle or raises an exception. -/
structure Env (Params Conn : Type) where
  mysqlConnect : Params → Except PyExc Conn
  mariadbConnect : Params → Except PyExc Conn

/-- The `SQL_Adapter` object: its only field is the configuration stored
by `__init__`. -/
structure SQL_Adapter (Params : Type) where
  database_config : Database Params
deriving DecidableEq, Repr

/-- `SQL_Adapter.__init__`: stores the supplied configuration verbatim. -/
def SQL_Adapter.init {Params : Type} (database_config : Database Params) :
    SQL_Adapter Params :=
  { database_config := database_config }

/-- The observable outcome of one method call: the post-state of `self`,
the returned connection or raised exception, and the messages logged. -/
structure OpResult (Params Conn : Type) where
  adapter : SQL_Adapter Params
  result : Except PyExc Conn
  logs : List String
deriving Repr

/-- `SQL_Adapter.create_mysql_connection`: calls
`mysql.connector.connect(**self.database_config.get_mysql_connection_params())`;
on `mysql.connector.Error` branches on `err.errno` to log one message and
re-raises; any other exception propagates uncaught. -/
def SQL_Adapter.create_mysql_connection {Params Conn : Type}
    (env : Env Params Conn) (self : SQL_Adapter Params) :
    OpResult Params Conn :=
  match env.mysqlConnect self.database_config.get_mysql_connection_params with
  | .ok connection => ⟨self, .ok connection, []⟩
  | .error (.mysqlError errno msg) =>
    if errno = ER_ACCESS_DENIED_ERROR then
      ⟨self, .error (.mysqlError errno msg), ["Database access denied."]⟩
    else if errno = ER_BAD_DB_ERROR then
      ⟨self, .error (.mysqlError errno msg),
        ["Specified database \"" ++ self.database_config.name ++ "\" does not exist."]⟩
    else
      ⟨self, .error (.mysqlError errno msg), [pyStr (.mysqlError errno msg)]⟩
  | .error e => ⟨self, .error e, []⟩

/-- `SQL_Adapter.create_mariadb_connection`: calls
`mariadb.connect(**self.database_config.get_mysql_connection_params())`;
on `mariadb.Error` logs one interpolated message and re-raises; any other
exception propagates uncaught. -/
def SQL_Adapter.create_mariadb_connection {Params Conn : Type}
    (env : Env Params Conn) (self : SQL_Adapter Params) :
    OpResult Params Conn :=
  match env.mariadbConnect self.database_config.get_mysql_connection_params with
  | .ok connection => ⟨self, .ok connection, []⟩
  | .error (.mariadbError msg) =>
    ⟨self, .error (.mariadbError msg),
      ["Error connecting to MariaDB: " ++ pyStr (.mariadbError msg)]⟩
  | .error e => ⟨self, .error e, []⟩

/-- `SQL_Adapter.create_connection`: dispatches on
`self.database_config.type` with string equality, raising a bare
`NotImplementedError` on any unrecognized value. -/
def SQL_Adapter.create_connection {Params Conn : Type}
    (env : Env Params Conn) (self : SQL_Adapter Params) :
    OpResult Params Conn :=
  if "mysql" = self.database_config.type then
    self.create_mysql_connection env
  else if "mariadb" = self.database_config.type then
    self.create_mariadb_connection env
  else
    ⟨self, .error .notImplementedError, []⟩

/-- The parameter mapping both connect paths derive from the
configuration. -/
def connParams {Params : Type} (self : SQL_Adapter Params) : Params :=
  self.database_config.get_mysql_connection_params

/-- What `create_mysql_connection` does with the outcome of the client
connect call, factored out of the method body. -/
def mysqlOutcome {Params Conn : Type} (self : SQL_Adapter Params) :
    Except PyExc Conn → OpResult Params Conn
  | .ok connection => ⟨self, .ok connection, []⟩
  | .error (.mysqlError errno msg) =>
    if errno = ER_ACCESS_DENIED_ERROR then
      ⟨self, .error (.mysqlError errno msg), ["Database access denied."]⟩
    else if errno = ER_BAD_DB_ERROR then
      ⟨self, .error (.mysqlError errno msg),
        ["Specified database \"" ++ self.database_config.name ++ "\" does not exist."]⟩
    else
      ⟨self, .error (.mysqlError errno msg), [pyStr (.mysqlError errno msg)]⟩
  | .error e => ⟨self, .error e, []⟩

/-- What `create_mariadb_connection` does with the outcome of the client
connect call, factored out of the method body. -/
def mariadbOutcome {Params Conn : Type} (self : SQL_Adapter Params) :
    Except PyExc Conn → OpResult Params Conn
  | .ok connection => ⟨self, .ok connection, []⟩
  | .error (.mariadbError msg) =>
    ⟨self, .error (.mariadbError msg),
      ["Error connecting to MariaDB: " ++ pyStr (.mariadbError msg)]⟩
  | .error e => ⟨self, .error e, []⟩

/-- The single log message `create_mysql_connection` emits for a caught
`mysql.connector.Error`, selected by its error code. -/
def mysqlLogMsg {Params : Type} (self : SQL_Adapter Params)
    (errno : Nat) (msg : String) : String :=
  if errno = ER_ACCESS_DENIED_ERROR then "Database access denied."
  else if errno = ER_BAD_DB_ERROR then
    "Specified database \"" ++ self.database_config.name ++ "\" does not exist."
  else pyStr (.mysqlError errno msg)

/-- Substring containment on strings. -/
def strContainsSub (s sub : String) : Prop :=
  ∃ l r, s = l ++ sub ++ r

/-- The three public operations of the adapter, for reasoning about call
sequences. -/
inductive Op where
  | createConnection
  | createMysqlConnection
  | createMariadbConnection
deriving DecidableEq, Repr

/-- Apply one operation to the adapter. -/
def applyOp {Params Conn : Type} (env : Env Params Conn) :
    Op → SQL_Adapter Params → OpResult Params Conn
  | .createConnection, a => a.create_connection env
  | .createMysqlConnection, a => a.create_mysql_connection env
  | .createMariadbConnection, a => a.create_mariadb_connection env

/-- Run a sequence of operations, threading the adapter state through. -/
def runOps {Params Conn : Type} (env : Env Params Conn) :
    List Op → SQL_Adapter Params → SQL_Adapter Params
  | [], a => a
  | op :: ops, a => runOps env ops (applyOp env op a).adapter

/-! Concrete fixtures used by witness theorems. -/

/-- A concrete configuration with a given type discriminator and database
name "orders". -/
def cfgW (t : String) : Database Nat :=
  { type := t, name := "orders", get_mysql_connection_params := 0 }

/-- An adapter constructed from `cfgW t`. -/
def adapterW (t : String) : SQL_Adapter Nat :=
  SQL_Adapter.init (cfgW t)

/-- An environment in which both clients connect successfully. -/
def envOkW : Env Nat Nat :=
  { mysqlConnect := fun _ => Except.ok 7, mariadbConnect := fun _ => Except.ok 8 }

/-- An environment in which the MySQL client reports an unknown database
and the MariaDB client reports a timeout. -/
def envErrW : Env Nat Nat :=
  { mysqlConnect := fun _ => Except.error (PyExc.mysqlError 1049 "Unknown database"),
    mariadbConnect := fun _ => Except.error (PyExc.mariadbError "timeout") }

/-- An environment in which the MySQL client reports access denied. -/
def envDeniedW : Env Nat Nat :=
  { mysqlConnect := fun _ => Except.error (PyExc.mysqlError 1045 "denied"),
    mariadbConnect := fun _ => Except.ok 8 }

/-- An environment in which both clients raise exceptions that are not of
their own client error type. -/
def envForeignW : Env Nat Nat :=
  { mysqlConnect := fun _ => Except.error (PyExc.otherExc "boom"),
    mariadbConnect := fun _ => Except.error (PyExc.otherExc "boom") }

/-! Helper lemmas shared by several proofs. -/

/-- The MySQL path is the outcome handler applied to the client connect
call at the shared parameter mapping. -/
theorem create_mysql_eq_outcome {Params Conn : Type}
    (env : Env Params Conn) (a : SQL_Adapter Params) :
    a.create_mysql_connection env = mysqlOutcome a (env.mysqlConnect (connParams a)) := rfl

/-- The MariaDB path is the outcome handler applied to the client connect
call at the shared parameter mapping. -/
theorem create_mariadb_eq_outcome {Params Conn : Type}
    (env : Env Params Conn) (a : SQL_Adapter Params) :
    a.create_mariadb_connection env = mariadbOutcome a (env.mariadbConnect (connParams a)) := rfl

/-- On a raised exception the MySQL outcome handler re-raises it and logs
at most one line. -/
theorem mysqlOutcome_error {Params Conn : Type} (a : SQL_Adapter Params) (e : PyExc) :
    (mysqlOutcome a (Except.error e : Except PyExc Conn)).result = Except.error e ∧
    (mysqlOutcome a (Except.error e : Except PyExc Conn)).logs.length ≤ 1 := by
  cases e <;> simp only [mysqlOutcome] <;> first | (split_ifs <;> simp) | simp

/-- On a raised exception the MariaDB outcome handler re-raises it and
logs at most one line. -/
theorem mariadbOutcome_error {Params Conn : Type} (a : SQL_Adapter Params) (e : PyExc) :
    (mariadbOutcome a (Except.error e : Except PyExc Conn)).result = Except.error e ∧
    (mariadbOutcome a (Except.error e : Except PyExc Conn)).logs.length ≤ 1 := by
  cases e <;> simp [mariadbOutcome]

/-- The MySQL outcome handler never alters the adapter state. -/
theorem mysqlOutcome_adapter {Params Conn : Type} (a : SQL_Adapter Params)
    (o : Except PyExc Conn) :
    (mysqlOutcome a o).adapter = a := by
  rcases o with e | c
  · cases e <;> simp only [mysqlOutcome] <;> split_ifs <;> rfl
  · rfl

/-- The MariaDB outcome handler never alters the adapter state. -/
theorem mariadbOutcome_adapter {Params Conn : Type} (a : SQL_Adapter Params)
    (o : Except PyExc Conn) :
    (mariadbOutcome a o).adapter = a := by
  rcases o with e | c
  · cases e <;> rfl
  · rfl

/-- Every method call leaves the adapter state unchanged. -/
theorem applyOp_adapter {Params Conn : Type} (env : Env Params Conn)
    (op : Op) (a : SQL_Adapter Params) :
    (applyOp env op a).adapter = a := by
  cases op with
  | createConnection =>
    simp only [applyOp, SQL_Adapter.create_connection]
    split_ifs
    · rw [create_mysql_eq_outcome]
      exact mysqlOutcome_adapter a _
    · rw [create_mariadb_eq_outcome]
      exact mariadbOutcome_adapter a _
    · rfl
  | createMysqlConnection =>
    simp only [applyOp]
    rw [create_mysql_eq_outcome]
    exact mysqlOutcome_adapter a _
  | createMariadbConnection =>
    simp only [applyOp]
    rw [create_mariadb_eq_outcome]
    exact mariadbOutcome_adapter a _

/-! Claim theorems. -/

/-- C1: for a configuration whose type is "mysql", create_connection
returns exactly the result of create_mysql_connection, and for "mariadb"
exactly the result of create_mariadb_connection, with identical logging
and identical failure propagation (the whole OpResult coincides). -/
theorem create_connection_delegates {Params Conn : Type}
    (env : Env Params Conn) (a : SQL_Adapter Params) :
    (a.database_config.type = "mysql" →
      a.create_connection env = a.create_mysql_connection env) ∧
    (a.database_config.type = "mariadb" →
      a.create_connection env = a.create_mariadb_connection env) := by
  constructor
  · intro h
    simp [SQL_Adapter.create_connection, h]
  · intro h
    simp [SQL_Adapter.create_connection, h]

/-- Witness for C1 at a concrete adapter and environment. -/
theorem create_connection_delegates_witness :
    (adapterW "mysql").create_connection envOkW =
      (adapterW "mysql").create_mysql_connection envOkW ∧
    (adapterW "mariadb").create_connection envOkW =
      (adapterW "mariadb").create_mariadb_connection envOkW :=
  ⟨(create_connection_delegates envOkW (adapterW "mysql")).1 rfl,
   (create_connection_delegates envOkW (adapterW "mariadb")).2 rfl⟩

/-- C2: for a configuration whose type is neither "mysql" nor "mariadb",
create_connection yields a bare NotImplementedError with no log message,
and the result is the same for every environment, so neither client
connect function is ever consulted. -/
theorem create_connection_unsupported {Params Conn : Type}
    (a : SQL_Adapter Params)
    (h1 : a.database_config.type ≠ "mysql")
    (h2 : a.database_config.type ≠ "mariadb") :
    ∀ env : Env Params Conn,
      a.create_connection env = ⟨a, Except.error PyExc.notImplementedError, []⟩ := by
  intro env
  have h1' : ¬ ("mysql" = a.database_config.type) := fun h => h1 h.symm
  have h2' : ¬ ("mariadb" = a.database_config.type) := fun h => h2 h.symm
  simp [SQL_Adapter.create_connection, h1', h2']

/-- Witness for C2 with type "postgres". -/
theorem create_connection_unsupported_witness :
    (adapterW "postgres").create_connection envOkW =
      ⟨adapterW "postgres", Except.error PyExc.notImplementedError, []⟩ :=
  create_connection_unsupported (adapterW "postgres") (by decide) (by decide) envOkW

/-- C3: when the MySQL client raises a client error, exactly one message
is logged, selected by the error code: the fixed access-denied text for
ER_ACCESS_DENIED_ERROR, a message containing the configured database name
for ER_BAD_DB_ERROR, and the stringified raw error otherwise. -/
theorem create_mysql_connection_error_logging {Params Conn : Type}
    (env : Env Params Conn) (a : SQL_Adapter Params) (errno : Nat) (msg : String)
    (h : env.mysqlConnect (connParams a) = Except.error (PyExc.mysqlError errno msg)) :
    a.create_mysql_connection env =
      ⟨a, Except.error (PyExc.mysqlError errno msg), [mysqlLogMsg a errno msg]⟩ ∧
    (errno = ER_ACCESS_DENIED_ERROR →
      mysqlLogMsg a errno msg = "Database access denied.") ∧
    (errno = ER_BAD_DB_ERROR →
      strContainsSub (mysqlLogMsg a errno msg) a.database_config.name) ∧
    (errno ≠ ER_ACCESS_DENIED_ERROR → errno ≠ ER_BAD_DB_ERROR →
      mysqlLogMsg a errno msg = pyStr (PyExc.mysqlError errno msg)) := by
  refine ⟨?_, ?_, ?_, ?_⟩
  · rw [create_mysql_eq_outcome, h]
    simp only [mysqlOutcome, mysqlLogMsg]
    split_ifs <;> rfl
  · intro hA
    simp [mysqlLogMsg, hA]
  · intro hB
    subst hB
    refine ⟨"Specified database \"", "\" does not exist.", ?_⟩
    simp [mysqlLogMsg, ER_BAD_DB_ERROR, ER_ACCESS_DENIED_ERROR]
  · intro hA hB
    simp [mysqlLogMsg, hA, hB]

/-- Witness for C3: an unknown-database error with configuration name
"orders"; the logged message contains "orders". -/
theorem create_mysql_connection_error_logging_witness :
    (adapterW "mysql").create_mysql_connection envErrW =
      ⟨adapterW "mysql", Except.error (PyExc.mysqlError 1049 "Unknown database"),
        [mysqlLogMsg (adapterW "mysql") 1049 "Unknown database"]⟩ ∧
    strContainsSub (mysqlLogMsg (adapterW "mysql") 1049 "Unknown database") "orders" :=
  ⟨(create_mysql_connection_error_logging envErrW (adapterW "mysql")
      1049 "Unknown database" rfl).1,
   (create_mysql_connection_error_logging envErrW (adapterW "mysql")
      1049 "Unknown database" rfl).2.2.1 rfl⟩

/-- C4: when the MariaDB client raises a client error, exactly one message
interpolating the error is logged and the original error is re-raised. -/
theorem create_mariadb_connection_error_logging {Params Conn : Type}
    (env : Env Params Conn) (a : SQL_Adapter Params) (m : String)
    (h : env.mariadbConnect (connParams a) = Except.error (PyExc.mariadbError m)) :
    a.create_mariadb_connection env =
      ⟨a, Except.error (PyExc.mariadbError m),
        ["Error connecting to MariaDB: " ++ pyStr (PyExc.mariadbError m)]⟩ ∧
    strContainsSub ("Error connecting to MariaDB: " ++ pyStr (PyExc.mariadbError m))
      (pyStr (PyExc.mariadbError m)) := by
  constructor
  · rw [create_mariadb_eq_outcome, h]
    rfl
  · refine ⟨"Error connecting to MariaDB: ", "", ?_⟩
    simp

/-- Witness for C4: a MariaDB error with message "timeout"; the logged
message contains "timeout". -/
theorem create_mariadb_connection_error_logging_witness :
    (adapterW "mariadb").create_mariadb_connection envErrW =
      ⟨adapterW "mariadb", Except.error (PyExc.mariadbError "timeout"),
        ["Error connecting to MariaDB: " ++ pyStr (PyExc.mariadbError "timeout")]⟩ ∧
    strContainsSub ("Error connecting to MariaDB: " ++ pyStr (PyExc.mariadbError "timeout"))
      (pyStr (PyExc.mariadbError "timeout")) :=
  create_mariadb_connection_error_logging envErrW (adapterW "mariadb") "timeout" rfl

/-- C5: every failure is surfaced to the caller unchanged, after at most
one log line: each connect failure is re-raised as the same error by the
two client-specific operations, and any error surfaced by
create_connection is either its own NotImplementedError or exactly the
error raised by the client that was consulted. -/
theorem failure_propagation {Params Conn : Type}
    (env : Env Params Conn) (a : SQL_Adapter Params) :
    (∀ e : PyExc, env.mysqlConnect (connParams a) = Except.error e →
      (a.create_mysql_connection env).result = Except.error e ∧
      (a.create_mysql_connection env).logs.length ≤ 1) ∧
    (∀ e : PyExc, env.mariadbConnect (connParams a) = Except.error e →
      (a.create_mariadb_connection env).result = Except.error e ∧
      (a.create_mariadb_connection env).logs.length ≤ 1) ∧
    (∀ e : PyExc, (a.create_connection env).result = Except.error e →
      (a.create_connection env).logs.length ≤ 1 ∧
      (e = PyExc.notImplementedError ∨
        env.mysqlConnect (connParams a) = Except.error e ∨
        env.mariadbConnect (connParams a) = Except.error e)) := by
  refine ⟨?_, ?_, ?_⟩
  · intro e h
    rw [create_mysql_eq_outcome, h]
    exact mysqlOutcome_error a e
  · intro e h
    rw [create_mariadb_eq_outcome, h]
    exact mariadbOutcome_error a e
  · intro e
    unfold SQL_Adapter.create_connection
    split_ifs with h1 h2
    · rw [create_mysql_eq_outcome]
      rcases ho : env.mysqlConnect (connParams a) with e' | c
      · intro h
        have he : (Except.error e' : Except PyExc Conn) = Except.error e :=
          ((mysqlOutcome_error a e').1).symm.trans h
        exact ⟨(mysqlOutcome_error a e').2, Or.inr (Or.inl he)⟩
      · intro h
        simp [mysqlOutcome] at h
    · rw [create_mariadb_eq_outcome]
      rcases ho : env.mariadbConnect (connParams a) with e' | c
      · intro h
        have he : (Except.error e' : Except PyExc Conn) = Except.error e :=
          ((mariadbOutcome_error a e').1).symm.trans h
        exact ⟨(mariadbOutcome_error a e').2, Or.inr (Or.inr he)⟩
      · intro h
        simp [mariadbOutcome] at h
    · intro h
      simp only [] at h
      refine ⟨by simp, Or.inl ?_⟩
      cases h
      rfl

/-- Witness for C5: an access-denied failure is re-raised unchanged with
a single log line. -/
theorem failure_propagation_witness :
    ((adapterW "mysql").create_mysql_connection envDeniedW).result =
      Except.error (PyExc.mysqlError 1045 "denied") ∧
    ((adapterW "mysql").create_mysql_connection envDeniedW).logs.length ≤ 1 :=
  (failure_propagation envDeniedW (adapterW "mysql")).1
    (PyExc.mysqlError 1045 "denied") rfl

/-- C6: the constructor stores the configuration verbatim, and no
sequence of operations, whatever its outcomes, changes the stored
configuration. -/
theorem config_never_mutated {Params Conn : Type} (env : Env Params Conn)
    (ops : List Op) (cfg : Database Params) :
    (SQL_Adapter.init cfg).database_config = cfg ∧
    runOps env ops (SQL_Adapter.init cfg) = SQL_Adapter.init cfg := by
  refine ⟨rfl, ?_⟩
  generalize SQL_Adapter.init cfg = a
  induction ops generalizing a with
  | nil => rfl
  | cons op ops ih =>
    rw [runOps, applyOp_adapter]
    exact ih a

/-- C7: both client-specific operations pass the identical parameter
mapping, derived from the configuration via get_mysql_connection_params,
to their respective client connect call. -/
theorem connect_params_shared {Params Conn : Type}
    (env : Env Params Conn) (a : SQL_Adapter Params) :
    connParams a = a.database_config.get_mysql_connection_params ∧
    a.create_mysql_connection env = mysqlOutcome a (env.mysqlConnect (connParams a)) ∧
    a.create_mariadb_connection env = mariadbOutcome a (env.mariadbConnect (connParams a)) :=
  ⟨rfl, rfl, rfl⟩

/-- C8: only the client library's own error type is caught and logged:
an exception that is not a mysql.connector.Error propagates out of
create_mysql_connection with no log, and one that is not a mariadb.Error
propagates out of create_mariadb_connection with no log. -/
theorem foreign_exception_not_caught {Params Conn : Type}
    (env : Env Params Conn) (a : SQL_Adapter Params) :
    (∀ e : PyExc, e.isMysqlError = false →
      env.mysqlConnect (connParams a) = Except.error e →
      a.create_mysql_connection env = ⟨a, Except.error e, []⟩) ∧
    (∀ e : PyExc, e.isMariadbError = false →
      env.mariadbConnect (connParams a) = Except.error e →
      a.create_mariadb_connection env = ⟨a, Except.error e, []⟩) := by
  constructor
  · intro e he h
    rw [create_mysql_eq_outcome, h]
    cases e <;> simp [PyExc.isMysqlError] at he ⊢ <;> rfl
  · intro e he h
    rw [create_mariadb_eq_outcome, h]
    cases e <;> simp [PyExc.isMariadbError] at he ⊢ <;> rfl

/-- Witness for C8: a foreign exception raised inside each connect call
passes through uncaught and unlogged. -/
theorem foreign_exception_not_caught_witness :
    (adapterW "mysql").create_mysql_connection envForeignW =
      ⟨adapterW "mysql", Except.error (PyExc.otherExc "boom"), []⟩ ∧
    (adapterW "mariadb").create_mariadb_connection envForeignW =
      ⟨adapterW "mariadb", Except.error (PyExc.otherExc "boom"), []⟩ :=
  ⟨(foreign_exception_not_caught envForeignW (adapterW "mysql")).1
      (PyExc.otherExc "boom") rfl rfl,
   (foreign_exception_not_caught envForeignW (adapterW "mariadb")).2
      (PyExc.otherExc "boom") rfl rfl⟩

/-- C9: on the success path each operation returns the client connection
handle unchanged and logs nothing, including create_connection for both
recognized discriminator values. -/
theorem success_no_logging {Params Conn : Type}
    (env : Env Params Conn) (a : SQL_Adapter Params) :
    (∀ c : Conn, env.mysqlConnect (connParams a) = Except.ok c →
      a.create_mysql_connection env = ⟨a, Except.ok c, []⟩) ∧
    (∀ c : Conn, env.mariadbConnect (connParams a) = Except.ok c →
      a.create_mariadb_connection env = ⟨a, Except.ok c, []⟩) ∧
    (∀ c : Conn, a.database_config.type = "mysql" →
      env.mysqlConnect (connParams a) = Except.ok c →
      a.create_connection env = ⟨a, Except.ok c, []⟩) ∧
    (∀ c : Conn, a.database_config.type = "mariadb" →
      env.mariadbConnect (connParams a) = Except.ok c →
      a.create_connection env = ⟨a, Except.ok c, []⟩) := by
  have hmy : ∀ c : Conn, env.mysqlConnect (connParams a) = Except.ok c →
      a.create_mysql_connection env = ⟨a, Except.ok c, []⟩ := by
    intro c h
    rw [create_mysql_eq_outcome, h]
    rfl
  have hma : ∀ c : Conn, env.mariadbConnect (connParams a) = Except.ok c →
      a.create_mariadb_connection env = ⟨a, Except.ok c, []⟩ := by
    intro c h
    rw [create_mariadb_eq_outcome, h]
    rfl
  refine ⟨hmy, hma, ?_, ?_⟩
  · intro c ht h
    rw [SQL_Adapter.create_connection, if_pos ht.symm]
    exact hmy c h
  · intro c ht h
    have hne : ¬ ("mysql" = a.database_config.type) := by
      rw [ht]
      decide
    rw [SQL_Adapter.create_connection, if_neg hne, if_pos ht.symm]
    exact hma c h

/-- Witness for C9: successful connects return the handle with an empty
log on all four paths. -/
theorem success_no_logging_witness :
    (adapterW "mysql").create_mysql_connection envOkW = ⟨adapterW "mysql", Except.ok 7, []⟩ ∧
    (adapterW "mariadb").create_mariadb_connection envOkW = ⟨adapterW "mariadb", Except.ok 8, []⟩ ∧
    (adapterW "mysql").create_connection envOkW = ⟨adapterW "mysql", Except.ok 7, []⟩ ∧
    (adapterW "mariadb").create_connection envOkW = ⟨adapterW "mariadb", Except.ok 8, []⟩ :=
  ⟨(success_no_logging envOkW (adapterW "mysql")).1 7 rfl,
   (success_no_logging envOkW (adapterW "mariadb")).2.1 8 rfl,
   (success_no_logging envOkW (adapterW "mysql")).2.2.1 7 rfl rfl,
   (success_no_logging envOkW (adapterW "mariadb")).2.2.2 8 rfl rfl⟩

/-- C10: dispatch is exact, case-sensitive string equality: any
discriminator other than the exact strings "mysql" and "mariadb" takes
the unsupported branch, whose raised error is the bare
NotImplementedError carrying no payload, for every environment. -/
theorem dispatch_case_sensitive {Params Conn : Type}
    (env : Env Params Conn) (t n : String) (p : Params)
    (h1 : t ≠ "mysql") (h2 : t ≠ "mariadb") :
    SQL_Adapter.create_connection env (SQL_Adapter.init ⟨t, n, p⟩) =
      ⟨SQL_Adapter.init ⟨t, n, p⟩, Except.error PyExc.notImplementedError, []⟩ := by
  have h1' : ¬ ("mysql" = t) := fun h => h1 h.symm
  have h2' : ¬ ("mariadb" = t) := fun h => h2 h.symm
  simp [SQL_Adapter.create_connection, SQL_Adapter.init, h1', h2']

/-- Witness for C10 at case variants and whitespace variants of the
recognized discriminators. -/
theorem dispatch_case_sensitive_witness :
    SQL_Adapter.create_connection envOkW (SQL_Adapter.init ⟨"MySQL", "orders", 0⟩) =
      ⟨SQL_Adapter.init ⟨"MySQL", "orders", 0⟩, Except.error PyExc.notImplementedError, []⟩ ∧
    SQL_Adapter.create_connection envOkW (SQL_Adapter.init ⟨"Mysql", "orders", 0⟩) =
      ⟨SQL_Adapter.init ⟨"Mysql", "orders", 0⟩, Except.error PyExc.notImplementedError, []⟩ ∧
    SQL_Adapter.create_connection envOkW (SQL_Adapter.init ⟨" mysql ", "orders", 0⟩) =
      ⟨SQL_Adapter.init ⟨" mysql ", "orders", 0⟩, Except.error PyExc.notImplementedError, []⟩ :=
  ⟨dispatch_case_sensitive envOkW "MySQL" "orders" 0 (by decide) (by decide),
   dispatch_case_sensitive envOkW "Mysql" "orders" 0 (by decide) (by decide),
   dispatch_case_sensitive envOkW " mysql " "orders" 0 (by decide) (by decide)⟩
